import Mathlib

/-!
Verification of the `coveredcall_agents` fundamentals pipeline
(repository `options-ai-platform`, directory `src/engine/coveredcall-agents`).

Shallow embedding conventions:
* Python floats are modelled as `ℚ` (all decision logic compares and combines
  decimal constants; no float-specific behaviour is relied upon by the code).
* Python `Optional[...]` fields are `Option ...`; functions that can `raise`
  return `Except String ...`; a node returning the empty update `{}` is
  modelled as `Option`-valued `none` inside the `Except`.
* `pydantic` models become structures carrying the fields the pipeline reads.
* Sources: `contracts/enums.py`, `graph/state.py`, `agents/fundamental_agent.py`,
  `utils/divergence.py`, `fundamentals/final_resolver.py`,
  `agents/debate_agents.py`, `trade_policy/stance_action.py`,
  `agents/llm_node.py`, `agents/agentic_node.py`,
  `agentic/agentic_contracts.py`.
-/

namespace CoveredCall

/-- `contracts/enums.py`: `class Stance(str, Enum)`. -/
inductive Stance where
  | BEARISH
  | NEUTRAL
  | BULLISH
deriving DecidableEq, Repr

/-- `contracts/enums.py`: `class CoveredCallBias(str, Enum)`. -/
inductive CoveredCallBias where
  | CAUTION
  | INCOME
  | UPSIDE
deriving DecidableEq, Repr

/-- `contracts/enums.py`: `class TradeAction(str, Enum)`. -/
inductive TradeAction where
  | SELL_CALL
  | SELL_CALL_MORE_OTM
  | HOLD
  | AVOID_CALLS
  | CLOSE_OR_ROLL
deriving DecidableEq, Repr

/-- `graph/state.py`: `DivergenceSeverity = Literal["ALIGNED", "MINOR", "MAJOR", "CRITICAL", "EXTREME"]`. -/
inductive DivergenceSeverity where
  | ALIGNED
  | MINOR
  | MAJOR
  | CRITICAL
  | EXTREME
deriving DecidableEq, Repr

/-- `fundamentals/mode.py`: `class FundamentalsMode(str, Enum)`. -/
inductive FundamentalsMode where
  | DETERMINISTIC
  | LLM
  | AGENTIC
deriving DecidableEq, Repr

/-- `graph/state.py`: `class FinalSource(str, Enum)`. -/
inductive FinalSource where
  | DETERMINISTIC
  | LLM
  | AGENTIC
deriving DecidableEq, Repr

/-- The `.value` string of a `Stance` member. -/
def Stance.value : Stance → String
  | .BEARISH => "BEARISH"
  | .NEUTRAL => "NEUTRAL"
  | .BULLISH => "BULLISH"

/-- The `.value` string of a `CoveredCallBias` member. -/
def CoveredCallBias.value : CoveredCallBias → String
  | .CAUTION => "CAUTION"
  | .INCOME => "INCOME"
  | .UPSIDE => "UPSIDE"

/-- The string carried by a `DivergenceSeverity` literal. -/
def DivergenceSeverity.value : DivergenceSeverity → String
  | .ALIGNED => "ALIGNED"
  | .MINOR => "MINOR"
  | .MAJOR => "MAJOR"
  | .CRITICAL => "CRITICAL"
  | .EXTREME => "EXTREME"

/-- `graph/state.py`: `class DataQuality(BaseModel)` (the `as_of` timestamp is
never read by the decision logic and is omitted). -/
structure DataQuality where
  is_stub : Bool := true
  missing_fields : List String := []
  warnings : List String := []
deriving DecidableEq, Repr

/-- `graph/state.py`: `class FundamentalSnapshot(BaseModel)` (the decision
logic reads only the numeric fundamentals and the quality record; the
API-metadata validator is presentation-only and omitted). -/
structure FundamentalSnapshot where
  ticker : String
  price : Option ℚ := none
  market_cap : Option ℚ := none
  revenue_growth_yoy_pct : Option ℚ := none
  eps_growth_yoy_pct : Option ℚ := none
  gross_margin_pct : Option ℚ := none
  operating_margin_pct : Option ℚ := none
  debt_to_equity : Option ℚ := none
  quality : DataQuality := {}
deriving DecidableEq, Repr

/-- `graph/state.py`: `class FundamentalsView(BaseModel)`. -/
structure FundamentalsView where
  stance : Stance
  covered_call_bias : CoveredCallBias
  confidence : ℚ
  key_points : List String := []
  risks : List String := []
deriving DecidableEq, Repr

/-- The `fundamentals` sub-dictionary of the run configuration, with the
defaults read out in `fundamental_agent.py` lines 25–28 and
`_debate_enabled` (`bool(fcfg.get("force_debate"))`). -/
structure FundamentalsConfig where
  strong_growth_pct : ℚ := 5
  strong_oper_margin_pct : ℚ := 10
  min_oper_margin_pct : ℚ := 5
  max_debt_to_equity : ℚ := 2
  force_debate : Bool := false
deriving DecidableEq, Repr

/-- The `trade_policy` sub-dictionary of the run configuration
(`proposal_node`: `.get("min_confidence", 0.55)`; the default is written as
a fraction because decimal `ℚ` literals elaborate through an irreducible
function that blocks `decide`). -/
structure TradePolicyConfig where
  min_confidence : ℚ := 55 / 100
deriving DecidableEq, Repr

/-- The run configuration slice consumed by the fundamentals pipeline. -/
structure Config where
  fundamentals : FundamentalsConfig := {}
  trade_policy : TradePolicyConfig := {}
  trace : Bool := false
deriving DecidableEq, Repr

/-! ## Deterministic evaluator (`agents/fundamental_agent.py`) -/

/-- Count of bullish signals accumulated by `fundamental_node`
(lines 40–54): revenue growth `>= strong_growth` and operating margin
`>= strong_margin` each contribute one. -/
def bullish_signals (fcfg : FundamentalsConfig) (snap : FundamentalSnapshot) : ℕ :=
  (match snap.revenue_growth_yoy_pct with
    | some g => if fcfg.strong_growth_pct ≤ g then 1 else 0
    | none => 0)
  + (match snap.operating_margin_pct with
    | some m => if fcfg.strong_oper_margin_pct ≤ m then 1 else 0
    | none => 0)

/-- Count of bearish signals accumulated by `fundamental_node`
(lines 40–64): negative revenue growth (`elif` branch, so only when not
already bullish), operating margin below `min_margin` (likewise an `elif`),
and debt-to-equity above `max_d2e`. -/
def bearish_signals (fcfg : FundamentalsConfig) (snap : FundamentalSnapshot) : ℕ :=
  (match snap.revenue_growth_yoy_pct with
    | some g => if fcfg.strong_growth_pct ≤ g then 0 else if g < 0 then 1 else 0
    | none => 0)
  + (match snap.operating_margin_pct with
    | some m =>
        if fcfg.strong_oper_margin_pct ≤ m then 0
        else if m < fcfg.min_oper_margin_pct then 1 else 0
    | none => 0)
  + (match snap.debt_to_equity with
    | some d => if fcfg.max_debt_to_equity < d then 1 else 0
    | none => 0)

/-- Stance selection of `fundamental_node` (lines 66–72). -/
def det_stance (fcfg : FundamentalsConfig) (snap : FundamentalSnapshot) : Stance :=
  if 2 ≤ bearish_signals fcfg snap then .BEARISH
  else if 2 ≤ bullish_signals fcfg snap ∧ bearish_signals fcfg snap = 0 then .BULLISH
  else .NEUTRAL

/-- Bias selection of `fundamental_node` (lines 74–83). -/
def det_bias : Stance → CoveredCallBias
  | .BULLISH => .UPSIDE
  | .BEARISH => .CAUTION
  | .NEUTRAL => .INCOME

/-- Confidence computation of `fundamental_node` (lines 86–89):
`confidence = 0.8 if missing == 0 else max(0.3, 0.7 - 0.1 * missing)`. -/
def det_confidence (snap : FundamentalSnapshot) : ℚ :=
  let missing := snap.quality.missing_fields.length
  if missing = 0 then 0.8 else max 0.3 (0.7 - 0.1 * missing)

/-- Computable floor of a rational (the `Int.floor` instance of `ℚ` does
not reduce under `decide`; the denominator is positive, so Euclidean
division of the numerator floors). -/
def ratFloor (q : ℚ) : ℤ := q.num / (q.den : ℤ)

/-- `ratFloor` agrees with the mathematical floor. -/
lemma ratFloor_eq (q : ℚ) : ratFloor q = ⌊q⌋ := Rat.floor_def.symm

/-- Fixed-point decimal rendering used for the Python format specifiers
`:.1f` / `:.2f` appearing in interpolated strings. Rounds half away from
zero on the scaled magnitude (Python formats the underlying binary float
with round-half-even; no claim depends on the rendered digits). -/
def fmtFixed (prec : ℕ) (q : ℚ) : String :=
  let scale : ℚ := (10 : ℚ) ^ prec
  let n : ℤ := ratFloor (q * scale + 1/2)
  let a : ℕ := n.natAbs
  let ip : ℕ := a / 10 ^ prec
  let fp : ℕ := a % 10 ^ prec
  let fs : String := toString fp
  let fs : String := String.mk (List.replicate (prec - fs.length) '0') ++ fs
  (if n < 0 then "-" else "") ++ toString ip ++ (if prec = 0 then "" else "." ++ fs)

/-- The `FundamentalsView` written to `det_fundamentals` by `fundamental_node`
(`agents/fundamental_agent.py` lines 30–98): points and risks accumulated
metric by metric, the stance-dependent point appended last, `points[:4]`
and `(risks + warnings)[:2]` truncation as in the source. -/
def fundamental_node_view (cfg : Config) (snap : FundamentalSnapshot) : FundamentalsView :=
  let fcfg := cfg.fundamentals
  let growthPoints : List String := match snap.revenue_growth_yoy_pct with
    | some g => ["Revenue growth YoY: " ++ fmtFixed 1 g ++ "%"]
    | none => []
  let growthRisks : List String := match snap.revenue_growth_yoy_pct with
    | some _ => []
    | none => ["Missing revenue growth data"]
  let opmPoints : List String := match snap.operating_margin_pct with
    | some m => ["Operating margin: " ++ fmtFixed 1 m ++ "%"]
    | none => []
  let opmRisks : List String := match snap.operating_margin_pct with
    | some _ => []
    | none => ["Missing operating margin data"]
  let d2ePoints : List String := match snap.debt_to_equity with
    | some d => ["Debt-to-equity: " ++ fmtFixed 2 d]
    | none => []
  let d2eRisks : List String := match snap.debt_to_equity with
    | some d => if fcfg.max_debt_to_equity < d then ["Leverage is elevated"] else []
    | none => ["Missing leverage (debt-to-equity) data"]
  let stance := det_stance fcfg snap
  let bias := det_bias stance
  let stancePoint : String := match stance with
    | .BULLISH => "Fundamentals tilt bullish → prefer higher strike / more OTM calls."
    | .BEARISH => "Fundamentals tilt bearish → consider no-trade or very conservative calls."
    | .NEUTRAL => "Fundamentals neutral → prefer income harvesting / closer strikes."
  let points := growthPoints ++ opmPoints ++ d2ePoints ++ [stancePoint]
  let risks := growthRisks ++ opmRisks ++ d2eRisks
  { stance := stance
    covered_call_bias := bias
    confidence := det_confidence snap
    key_points := points.take 4
    risks := (risks ++ snap.quality.warnings).take 2 }

/-! ## Claims C1 and C2 -/

/-- Confidence law as worded by the spec claim C1 (for comparison with the
source-derived `det_confidence`): 0.8 minus 0.1 per missing field, floored
at 0.3. -/
def spec_claimed_confidence (missing : ℕ) : ℚ :=
  max 0.3 (0.8 - 0.1 * missing)

/-- Stance rule as worded by the spec claim C2 (for comparison with the
source-derived `det_stance`): a two-signal majority on either side wins. -/
def spec_claimed_majority_stance (bull bear : ℕ) : Stance :=
  if 2 ≤ bear ∧ bull < bear then .BEARISH
  else if 2 ≤ bull ∧ bear < bull then .BULLISH
  else .NEUTRAL

/-- A snapshot whose provider flagged exactly one missing field. -/
def snapOneMissing : FundamentalSnapshot :=
  { ticker := "TEST"
    revenue_growth_yoy_pct := some 6
    debt_to_equity := some 1
    quality := { missing_fields := ["operating_margin_pct"] } }

/-- C1 (counterexample): with exactly one missing snapshot field the
Deterministic Evaluator's confidence is `max(0.3, 0.7 - 0.1·1) = 0.6`, not
the claimed `0.8 - 0.1·1 = 0.7`: the source drops a full 0.1 on the first
missing field and a further 0.1 for each one beyond it. -/
theorem C1_confidence_counterexample :
    (fundamental_node_view {} snapOneMissing).confidence = 0.6 ∧
    spec_claimed_confidence snapOneMissing.quality.missing_fields.length = 0.7 ∧
    (fundamental_node_view {} snapOneMissing).confidence ≠
      spec_claimed_confidence snapOneMissing.quality.missing_fields.length := by
  refine ⟨?_, ?_, ?_⟩ <;> norm_num [fundamental_node_view, det_confidence,
    spec_claimed_confidence, snapOneMissing]

/-- Helper for C1: the evaluator's confidence field is `det_confidence`. -/
lemma fundamental_node_view_confidence (cfg : Config) (snap : FundamentalSnapshot) :
    (fundamental_node_view cfg snap).confidence = det_confidence snap := rfl

/-- C1 (amended): for every Snapshot the Deterministic Evaluator's confidence
is 0.8 when no fields are missing and otherwise `max(0.3, 0.7 - 0.1·missing)`
(one more 0.1 step than the claim stated), and it always lies in [0.3, 0.8];
the computation is total (never raises). -/
theorem C1_confidence_amended (cfg : Config) (snap : FundamentalSnapshot) :
    ((fundamental_node_view cfg snap).confidence =
      if snap.quality.missing_fields.length = 0 then (0.8 : ℚ)
      else max 0.3 (0.7 - 0.1 * snap.quality.missing_fields.length)) ∧
    (snap.quality.missing_fields = [] →
      (fundamental_node_view cfg snap).confidence = 0.8) ∧
    0.3 ≤ (fundamental_node_view cfg snap).confidence ∧
    (fundamental_node_view cfg snap).confidence ≤ 0.8 := by
  rw [fundamental_node_view_confidence]
  unfold det_confidence
  refine ⟨rfl, ?_, ?_, ?_⟩
  · intro hnil; simp [hnil]
  · by_cases h0 : snap.quality.missing_fields.length = 0
    · simp [h0]; norm_num
    · simp only [h0, if_false]
      exact le_max_left _ _
  · by_cases h0 : snap.quality.missing_fields.length = 0
    · simp [h0]
    · simp only [h0, if_false]
      refine max_le (by norm_num) ?_
      have hm : (0 : ℚ) ≤ 0.1 * snap.quality.missing_fields.length := by positivity
      linarith

/-- Witness for C1: a snapshot with nothing missing evaluates to
confidence 0.8, and the bounds hold there. -/
theorem C1_confidence_amended_witness :
    (fundamental_node_view {} { ticker := "W" }).confidence = 0.8 ∧
    0.3 ≤ (fundamental_node_view {} { ticker := "W" }).confidence :=
  ⟨(C1_confidence_amended {} { ticker := "W" }).2.1 rfl,
   (C1_confidence_amended {} { ticker := "W" }).2.2.1⟩

/-- A snapshot with two bullish signals (growth 10 ≥ 5, margin 20 ≥ 10) and
one bearish signal (debt-to-equity 3 > 2) under the default thresholds. -/
def snapTwoBullOneBear : FundamentalSnapshot :=
  { ticker := "TEST"
    revenue_growth_yoy_pct := some 10
    operating_margin_pct := some 20
    debt_to_equity := some 3 }

/-- C2 (counterexample): with two bullish signals against one bearish signal
the claimed majority rule says BULLISH, but the source demands `bearish == 0`
for the bullish branch and returns NEUTRAL. -/
theorem C2_stance_counterexample :
    bullish_signals ({} : Config).fundamentals snapTwoBullOneBear = 2 ∧
    bearish_signals ({} : Config).fundamentals snapTwoBullOneBear = 1 ∧
    (fundamental_node_view {} snapTwoBullOneBear).stance = .NEUTRAL ∧
    spec_claimed_majority_stance 2 1 = .BULLISH ∧
    (fundamental_node_view {} snapTwoBullOneBear).stance ≠
      spec_claimed_majority_stance
        (bullish_signals ({} : Config).fundamentals snapTwoBullOneBear)
        (bearish_signals ({} : Config).fundamentals snapTwoBullOneBear) := by
  refine ⟨?_, ?_, ?_, ?_, ?_⟩ <;>
    norm_num [fundamental_node_view, det_stance, bullish_signals, bearish_signals,
      spec_claimed_majority_stance, snapTwoBullOneBear] <;> decide

/-- Helper for C2: two bearish signals force at most one bullish signal,
because the growth and margin contributions are exclusive per metric and
debt-to-equity can only be bearish. -/
lemma bearish_two_implies_bullish_le_one (fcfg : FundamentalsConfig)
    (snap : FundamentalSnapshot) :
    2 ≤ bearish_signals fcfg snap → bullish_signals fcfg snap ≤ 1 := by
  obtain ⟨t, p, mc, rg, eg, gm, om, de, q⟩ := snap
  intro hbear
  simp only [bullish_signals, bearish_signals] at hbear ⊢
  rcases rg with _ | g <;> rcases om with _ | m <;> rcases de with _ | d <;>
    dsimp only at hbear ⊢ <;> (try split_ifs at hbear ⊢) <;> omega

/-- C2 (amended): the stance is BEARISH exactly when at least two bearish
signals fire (in which case the bearish side always strictly outnumbers the
bullish side, so this branch agrees with a majority rule); it is BULLISH
only when at least two bullish signals fire AND no bearish signal fires
(stricter than the claimed majority: two bullish against one bearish yields
NEUTRAL); otherwise NEUTRAL. -/
theorem C2_stance_amended (cfg : Config) (snap : FundamentalSnapshot) :
    ((fundamental_node_view cfg snap).stance =
      if 2 ≤ bearish_signals cfg.fundamentals snap then Stance.BEARISH
      else if 2 ≤ bullish_signals cfg.fundamentals snap ∧
          bearish_signals cfg.fundamentals snap = 0 then Stance.BULLISH
      else Stance.NEUTRAL) ∧
    (2 ≤ bearish_signals cfg.fundamentals snap →
      bullish_signals cfg.fundamentals snap ≤ 1) ∧
    (2 ≤ bearish_signals cfg.fundamentals snap →
      bullish_signals cfg.fundamentals snap < bearish_signals cfg.fundamentals snap) := by
  refine ⟨rfl, bearish_two_implies_bullish_le_one cfg.fundamentals snap, ?_⟩
  intro h
  have := bearish_two_implies_bullish_le_one cfg.fundamentals snap h
  omega

/-- Witness for C2 (amended): a snapshot with three bearish signals
(negative growth, margin below the floor, leverage above the cap) has at
most one bullish signal and a strict bearish majority. -/
theorem C2_stance_amended_witness :
    bullish_signals ({} : Config).fundamentals
      { ticker := "W", revenue_growth_yoy_pct := some (-1),
        operating_margin_pct := some 1, debt_to_equity := some 3 } ≤ 1 ∧
    bullish_signals ({} : Config).fundamentals
      { ticker := "W", revenue_growth_yoy_pct := some (-1),
        operating_margin_pct := some 1, debt_to_equity := some 3 } <
    bearish_signals ({} : Config).fundamentals
      { ticker := "W", revenue_growth_yoy_pct := some (-1),
        operating_margin_pct := some 1, debt_to_equity := some 3 } :=
  ⟨(C2_stance_amended {} _).2.1 (by
      norm_num [bearish_signals]),
   (C2_stance_amended {} _).2.2 (by
      norm_num [bearish_signals])⟩

/-! ## Divergence engine (`utils/divergence.py`) -/

/-- `utils/divergence.py` lines 8–15. -/
def divergence_severity (score : ℚ) : DivergenceSeverity :=
  if score < 0.20 then .ALIGNED
  else if score < 0.40 then .MINOR
  else if score < 0.65 then .MAJOR
  else .CRITICAL

/-- `utils/divergence.py` lines 18–24 (the source dict has no EXTREME key —
a lookup with EXTREME would raise `KeyError`, but `action_hint` is only ever
applied to `divergence_severity` outputs, which exclude EXTREME). -/
def action_hint : DivergenceSeverity → String
  | .ALIGNED => "Proceed with deterministic recommendation"
  | .MINOR => "Proceed but annotate LLM nuance"
  | .MAJOR => "Surface both views to user (or trigger debate)"
  | .CRITICAL => "Require manual review or run debate/second pass"
  | .EXTREME => ""

/-- `stance_map = {"BEARISH": -1, "NEUTRAL": 0, "BULLISH": 1}` -/
def stance_map : Stance → ℤ
  | .BEARISH => -1
  | .NEUTRAL => 0
  | .BULLISH => 1

/-- `bias_map = {"CAUTION": -1, "INCOME": 0, "UPSIDE": 1}` -/
def bias_map : CoveredCallBias → ℤ
  | .CAUTION => -1
  | .INCOME => 0
  | .UPSIDE => 1

/-- Python `round(x, 3)` as used to present report fields (Python rounds
the binary float half to even; modelled half-up — no stored value in these
claims sits on a half-thousandth boundary). -/
def roundTo3 (q : ℚ) : ℚ := (⌊q * 1000 + 1/2⌋ : ℚ) / 1000

/-- `graph/state.py`: `class DivergenceReport(BaseModel)`. -/
structure DivergenceReport where
  score : ℚ
  severity : DivergenceSeverity
  stance : String × String
  covered_call_bias : String × String
  confidence : ℚ × ℚ
  stance_divergence : ℚ
  bias_divergence : ℚ
  confidence_divergence : ℚ
  action_hint : String
  notes : Option String := none
deriving DecidableEq, Repr

/-- `stance_div = abs(s_det - s_llm) / 2.0` -/
def stance_div (det llm : FundamentalsView) : ℚ :=
  |(stance_map det.stance : ℚ) - (stance_map llm.stance : ℚ)| / 2

/-- `bias_div = abs(b_det - b_llm) / 2.0` -/
def bias_div (det llm : FundamentalsView) : ℚ :=
  |(bias_map det.covered_call_bias : ℚ) - (bias_map llm.covered_call_bias : ℚ)| / 2

/-- `divergence.py` lines 43–44: `det_conf = float(getattr(det,
"confidence", 0.5) or 0.5)` — the attribute always exists on a view, but
Python's `or` additionally replaces a falsy confidence (`0.0`) by `0.5`. -/
def conf_or_half (c : ℚ) : ℚ := if c = 0 then 0.5 else c

/-- `conf_div = min(abs(det_conf - llm_conf), 0.5) / 0.5`, on the
`or 0.5`-coerced confidences of lines 43–44. -/
def conf_div (det llm : FundamentalsView) : ℚ :=
  min |conf_or_half det.confidence - conf_or_half llm.confidence| 0.5 / 0.5

/-- The clamped weighted score computed by `compute_divergence`
(lines 56–58); severity is derived from this value before rounding. -/
def compute_score (det llm : FundamentalsView) : ℚ :=
  max 0 (min 1 (0.45 * stance_div det llm + 0.30 * bias_div det llm
    + 0.25 * conf_div det llm))

/-- `utils/divergence.py` lines 27–71, `compute_divergence`.  Inputs are the
two `FundamentalsView`s (both present; the stance/bias/confidence attributes
always exist on a view, so the `getattr` defaults never fire, but the
`or 0.5` coercion on the confidences does fire at confidence `0.0`).  The
stored confidence pair is the coerced, rounded `(det_conf, llm_conf)`. -/
def compute_divergence (det llm : FundamentalsView) : DivergenceReport :=
  { score := roundTo3 (compute_score det llm)
    severity := divergence_severity (compute_score det llm)
    stance := (det.stance.value, llm.stance.value)
    covered_call_bias := (det.covered_call_bias.value, llm.covered_call_bias.value)
    confidence := (roundTo3 (conf_or_half det.confidence),
                   roundTo3 (conf_or_half llm.confidence))
    stance_divergence := roundTo3 (stance_div det llm)
    bias_divergence := roundTo3 (bias_div det llm)
    confidence_divergence := roundTo3 (conf_div det llm)
    action_hint := action_hint (divergence_severity (compute_score det llm))
    notes := none }

/-! ## Claim C3 -/

/-- Severity bands of `divergence_severity`: ALIGNED below 0.20. -/
lemma divergence_severity_aligned (s : ℚ) :
    divergence_severity s = .ALIGNED ↔ s < 0.20 := by
  unfold divergence_severity
  split_ifs with h1 h2 h3 <;> simp_all

/-- Severity bands of `divergence_severity`: MINOR on [0.20, 0.40). -/
lemma divergence_severity_minor (s : ℚ) :
    divergence_severity s = .MINOR ↔ 0.20 ≤ s ∧ s < 0.40 := by
  unfold divergence_severity
  split_ifs with h1 h2 h3 <;> simp_all

/-- Severity bands of `divergence_severity`: MAJOR on [0.40, 0.65). -/
lemma divergence_severity_major (s : ℚ) :
    divergence_severity s = .MAJOR ↔ 0.40 ≤ s ∧ s < 0.65 := by
  unfold divergence_severity
  split_ifs with h1 h2 h3 <;> simp_all
  intro h
  linarith

/-- Severity bands of `divergence_severity`: CRITICAL from 0.65 up. -/
lemma divergence_severity_critical (s : ℚ) :
    divergence_severity s = .CRITICAL ↔ 0.65 ≤ s := by
  unfold divergence_severity
  split_ifs with h1 h2 h3 <;> simp_all
  all_goals linarith

/-- Score law exactly as worded by claim C3 (for comparison with the
source-derived `compute_score`): the confidence divergence is taken on the
raw view confidences, without the source's `or 0.5` coercion. -/
def spec_claimed_divergence_score (det cmp : FundamentalsView) : ℚ :=
  max 0 (min 1 (0.45 * (|(stance_map det.stance : ℚ) - stance_map cmp.stance| / 2)
    + 0.30 * (|(bias_map det.covered_call_bias : ℚ) - bias_map cmp.covered_call_bias| / 2)
    + 0.25 * (min |det.confidence - cmp.confidence| 0.5 / 0.5)))

/-- A view with confidence 0.7. -/
def viewConfSeven : FundamentalsView := ⟨.NEUTRAL, .INCOME, 0.7, [], []⟩

/-- A view with confidence 0.0 — the agentic terminal-ABSTAIN fallback
writes exactly such a view into `llm_fundamentals`, so it reaches the
divergence engine. -/
def viewConfZero : FundamentalsView := ⟨.NEUTRAL, .INCOME, 0, [], []⟩

/-- C3 (counterexample): the claimed formula ignores the source's `or 0.5`
coercion of a falsy confidence (divergence.py lines 43–44).  At det
confidence 0.7 vs cmp confidence 0.0 (same stance and bias) the program's
score is `0.25·(min(|0.7−0.5|,0.5)/0.5) = 0.1` with severity ALIGNED, while
the claimed formula gives `0.25·(min(|0.7−0|,0.5)/0.5) = 0.25` with
severity MINOR. -/
theorem C3_divergence_score_counterexample :
    compute_score viewConfSeven viewConfZero = 0.1 ∧
    (compute_divergence viewConfSeven viewConfZero).severity = .ALIGNED ∧
    spec_claimed_divergence_score viewConfSeven viewConfZero = 0.25 ∧
    divergence_severity (spec_claimed_divergence_score viewConfSeven viewConfZero) =
      .MINOR ∧
    compute_score viewConfSeven viewConfZero ≠
      spec_claimed_divergence_score viewConfSeven viewConfZero := by
  have habs1 : |(0.7 : ℚ) - 0.5| = 0.2 := by
    rw [abs_of_nonneg (by norm_num)]
    norm_num
  have habs2 : |(0.7 : ℚ) - 0| = 0.7 := by
    rw [abs_of_nonneg (by norm_num)]
    norm_num
  have hzero : |(0 : ℚ) - 0| = 0 := by norm_num
  have hc1 : conf_or_half (0.7 : ℚ) = 0.7 := by
    unfold conf_or_half
    norm_num
  have hc2 : conf_or_half (0 : ℚ) = 0.5 := by
    unfold conf_or_half
    norm_num
  have hscore : compute_score viewConfSeven viewConfZero = 0.1 := by
    show max 0 (min 1 (0.45 * stance_div viewConfSeven viewConfZero
      + 0.30 * bias_div viewConfSeven viewConfZero
      + 0.25 * conf_div viewConfSeven viewConfZero)) = 0.1
    have hsd : stance_div viewConfSeven viewConfZero = 0 := by
      show |((0 : ℤ) : ℚ) - ((0 : ℤ) : ℚ)| / 2 = 0
      norm_num
    have hbd : bias_div viewConfSeven viewConfZero = 0 := by
      show |((0 : ℤ) : ℚ) - ((0 : ℤ) : ℚ)| / 2 = 0
      norm_num
    have hcd : conf_div viewConfSeven viewConfZero = 0.4 := by
      show min |conf_or_half (0.7 : ℚ) - conf_or_half (0 : ℚ)| 0.5 / 0.5 = 0.4
      rw [hc1, hc2, habs1, min_eq_left (by norm_num)]
      norm_num
    rw [hsd, hbd, hcd]
    rw [min_eq_right (by norm_num), max_eq_right (by norm_num)]
    norm_num
  have hclaim : spec_claimed_divergence_score viewConfSeven viewConfZero = 0.25 := by
    show max 0 (min 1 (0.45 * (|((0 : ℤ) : ℚ) - ((0 : ℤ) : ℚ)| / 2)
      + 0.30 * (|((0 : ℤ) : ℚ) - ((0 : ℤ) : ℚ)| / 2)
      + 0.25 * (min |(0.7 : ℚ) - 0| 0.5 / 0.5))) = 0.25
    rw [habs2, min_eq_right (by norm_num)]
    rw [show ((0 : ℤ) : ℚ) - ((0 : ℤ) : ℚ) = 0 by norm_num]
    rw [show |(0 : ℚ)| = 0 from abs_zero]
    rw [min_eq_right (by norm_num), max_eq_right (by norm_num)]
    norm_num
  refine ⟨hscore, ?_, hclaim, ?_, ?_⟩
  · show divergence_severity (compute_score viewConfSeven viewConfZero) = .ALIGNED
    rw [hscore, divergence_severity_aligned]
    norm_num
  · rw [hclaim, divergence_severity_minor]
    norm_num
  · rw [hscore, hclaim]
    norm_num

/-- C3 (amended): the divergence score is the clamped weighted sum
`0.45·(|Δstance|/2) + 0.30·(|Δbias|/2) + 0.25·(min(|Δconfidence|, 0.5)/0.5)`
with stance mapped to BEARISH/NEUTRAL/BULLISH = -1/0/1, bias mapped to
CAUTION/INCOME/UPSIDE = -1/0/1, and each confidence first coerced by the
source's `or 0.5` (a 0.0 confidence counts as 0.5); it lies in [0,1]; the
report severity is the band of that score (ALIGNED < 0.20 ≤ MINOR < 0.40 ≤
MAJOR < 0.65 ≤ CRITICAL); identical views score 0 with severity ALIGNED;
maximally opposed stance, bias and (coerced) confidence yield severity
CRITICAL.  (The report's stored `score` field is additionally
presentation-rounded to 3 decimals; severity is computed from the unrounded
score, as in the source.) -/
theorem C3_divergence_score (det cmp : FundamentalsView) :
    (compute_score det cmp =
      max 0 (min 1 (0.45 * (|(stance_map det.stance : ℚ) - stance_map cmp.stance| / 2)
        + 0.30 * (|(bias_map det.covered_call_bias : ℚ) - bias_map cmp.covered_call_bias| / 2)
        + 0.25 * (min |conf_or_half det.confidence - conf_or_half cmp.confidence| 0.5 / 0.5)))) ∧
    (0 ≤ compute_score det cmp ∧ compute_score det cmp ≤ 1) ∧
    ((compute_divergence det cmp).severity = divergence_severity (compute_score det cmp) ∧
      (compute_divergence det cmp).score = roundTo3 (compute_score det cmp)) ∧
    ((compute_divergence det cmp).severity = .ALIGNED ↔ compute_score det cmp < 0.20) ∧
    ((compute_divergence det cmp).severity = .MINOR ↔
      0.20 ≤ compute_score det cmp ∧ compute_score det cmp < 0.40) ∧
    ((compute_divergence det cmp).severity = .MAJOR ↔
      0.40 ≤ compute_score det cmp ∧ compute_score det cmp < 0.65) ∧
    ((compute_divergence det cmp).severity = .CRITICAL ↔ 0.65 ≤ compute_score det cmp) ∧
    (det = cmp → compute_score det cmp = 0 ∧
      (compute_divergence det cmp).severity = .ALIGNED) ∧
    (stance_div det cmp = 1 → bias_div det cmp = 1 →
      0.5 ≤ |conf_or_half det.confidence - conf_or_half cmp.confidence| →
      compute_score det cmp = 1 ∧ (compute_divergence det cmp).severity = .CRITICAL) := by
  refine ⟨rfl, ⟨le_max_left _ _, max_le (by norm_num) (min_le_left _ _)⟩, ⟨rfl, rfl⟩,
    divergence_severity_aligned _, divergence_severity_minor _,
    divergence_severity_major _, divergence_severity_critical _, ?_, ?_⟩
  · intro h
    subst h
    have hs : compute_score det det = 0 := by
      unfold compute_score stance_div bias_div conf_div
      norm_num
    refine ⟨hs, ?_⟩
    show divergence_severity (compute_score det det) = .ALIGNED
    rw [hs, divergence_severity_aligned]
    norm_num
  · intro hsd hbd hconf
    have hcd : conf_div det cmp = 1 := by
      unfold conf_div
      rw [min_eq_right hconf]
      norm_num
    have hs : compute_score det cmp = 1 := by
      unfold compute_score
      rw [hsd, hbd, hcd]
      norm_num
    refine ⟨hs, ?_⟩
    show divergence_severity (compute_score det cmp) = .CRITICAL
    rw [hs, divergence_severity_critical]
    norm_num

/-- Witness for C3: identical views (BULLISH/UPSIDE/0.8) give score 0 and
ALIGNED; fully opposed views (BULLISH/UPSIDE/0.8 vs BEARISH/CAUTION/0.1)
give score 1 and CRITICAL. -/
theorem C3_divergence_score_witness :
    (compute_score ⟨.BULLISH, .UPSIDE, 0.8, [], []⟩ ⟨.BULLISH, .UPSIDE, 0.8, [], []⟩ = 0 ∧
      (compute_divergence ⟨.BULLISH, .UPSIDE, 0.8, [], []⟩
        ⟨.BULLISH, .UPSIDE, 0.8, [], []⟩).severity = .ALIGNED) ∧
    (compute_divergence ⟨.BULLISH, .UPSIDE, 0.8, [], []⟩
        ⟨.BEARISH, .CAUTION, 0.1, [], []⟩).severity = .CRITICAL :=
  ⟨(C3_divergence_score _ _).2.2.2.2.2.2.2.1 rfl,
   ((C3_divergence_score ⟨.BULLISH, .UPSIDE, 0.8, [], []⟩
      ⟨.BEARISH, .CAUTION, 0.1, [], []⟩).2.2.2.2.2.2.2.2
      (by norm_num [stance_div, stance_map])
      (by norm_num [bias_div, bias_map])
      (by
        have h1 : conf_or_half (0.8 : ℚ) = 0.8 := by unfold conf_or_half; norm_num
        have h2 : conf_or_half (0.1 : ℚ) = 0.1 := by unfold conf_or_half; norm_num
        show (0.5 : ℚ) ≤ |conf_or_half (0.8 : ℚ) - conf_or_half (0.1 : ℚ)|
        rw [h1, h2, abs_of_pos (by norm_num : (0 : ℚ) < 0.8 - 0.1)]
        norm_num)).2⟩

/-! ## Resolution policy (`fundamentals/final_resolver.py`) -/

/-- `graph/state.py`: `class FinalFundamentalsDecision(BaseModel)`. -/
structure FinalFundamentalsDecision where
  stance : Stance
  covered_call_bias : CoveredCallBias
  confidence : ℚ
  source : FinalSource
  rationale : String := ""
deriving DecidableEq, Repr

/-- `final_resolver.py` lines 32–38, `_severity`: UNKNOWN when no report,
else the severity value uppercased (our severities are already uppercase). -/
def _severity (dr : Option DivergenceReport) : String :=
  match dr with
  | none => "UNKNOWN"
  | some r => r.severity.value

/-- `final_resolver.py` lines 42–49, `_mk`. -/
def _mk (src : FinalSource) (picked : FundamentalsView) (why : String) :
    FinalFundamentalsDecision :=
  { stance := picked.stance
    covered_call_bias := picked.covered_call_bias
    confidence := picked.confidence
    source := src
    rationale := why }

/-- `final_resolver.py` lines 12–75, `resolve_final_fundamentals`.  The
sequence of early returns is modelled by nested alternatives evaluated in
source order; the final `raise RuntimeError` is the `Except.error` case. -/
def resolve_final_fundamentals (mode : FundamentalsMode)
    (det llm agentic : Option FundamentalsView)
    (divergence_report : Option DivergenceReport) (force_debate : Bool) :
    Except String FinalFundamentalsDecision :=
  let severity := _severity divergence_report
  let step5 : Except String FinalFundamentalsDecision :=
    match det, llm, agentic with
    | some d, _, _ => .ok (_mk .DETERMINISTIC d ("fallback deterministic; severity=" ++ severity))
    | none, some l, _ => .ok (_mk .LLM l ("fallback llm; severity=" ++ severity))
    | none, none, some a => .ok (_mk .AGENTIC a ("fallback agentic; severity=" ++ severity))
    | none, none, none => .error "resolve_final_fundamentals: no fundamentals inputs available"
  let step4 : Except String FinalFundamentalsDecision :=
    if (severity = "MAJOR" ∨ severity = "CRITICAL") ∧ force_debate = true then
      match llm with
      | some l => .ok (_mk .LLM l ("severity=" ++ severity ++ " + force_debate; using llm"))
      | none => step5
    else step5
  let step3 : Except String FinalFundamentalsDecision :=
    if force_debate = true then
      match llm with
      | some l => .ok (_mk .LLM l ("force_debate; using llm; severity=" ++ severity))
      | none => step4
    else step4
  let step2 : Except String FinalFundamentalsDecision :=
    if severity = "ALIGNED" ∨ severity = "MINOR" then
      match det with
      | some d => .ok (_mk .DETERMINISTIC d ("severity=" ++ severity ++ "; prefer deterministic"))
      | none => step3
    else step3
  match mode, agentic with
  | .AGENTIC, some a => .ok (_mk .AGENTIC a ("mode=agentic; agentic present; severity=" ++ severity))
  | _, _ => step2

/-! ## Claim C4 -/

/-- C4: when the divergence severity is ALIGNED or MINOR and a deterministic
View is present — and rule 1 (mode AGENTIC with an agentic View) does not
fire first — the Final Decision carries the deterministic View's
stance/bias/confidence with source `deterministic`, regardless of
`force_debate` and of any LLM View. -/
theorem C4_resolution_aligned_minor (mode : FundamentalsMode)
    (d : FundamentalsView) (llm agentic : Option FundamentalsView)
    (dr : Option DivergenceReport) (force_debate : Bool)
    (hsev : _severity dr = "ALIGNED" ∨ _severity dr = "MINOR")
    (hmode : ¬(mode = .AGENTIC ∧ agentic.isSome = true)) :
    resolve_final_fundamentals mode (some d) llm agentic dr force_debate =
      .ok { stance := d.stance
            covered_call_bias := d.covered_call_bias
            confidence := d.confidence
            source := .DETERMINISTIC
            rationale := "severity=" ++ _severity dr ++ "; prefer deterministic" } := by
  rcases agentic with _ | a
  · cases mode <;> (simp only [resolve_final_fundamentals]; rw [if_pos hsev]; rfl)
  · cases mode
    case DETERMINISTIC => simp only [resolve_final_fundamentals]; rw [if_pos hsev]; rfl
    case LLM => simp only [resolve_final_fundamentals]; rw [if_pos hsev]; rfl
    case AGENTIC => exact absurd ⟨rfl, rfl⟩ hmode

/-- Witness for C4 (the spec scenario): det=BULLISH/UPSIDE/0.8,
llm=NEUTRAL/INCOME/0.6, severity=ALIGNED, force_debate=true, mode=llm
resolves to stance BULLISH with source deterministic. -/
theorem C4_resolution_aligned_minor_witness :
    resolve_final_fundamentals .LLM (some ⟨.BULLISH, .UPSIDE, 0.8, [], []⟩)
      (some ⟨.NEUTRAL, .INCOME, 0.6, [], []⟩) none
      (some { score := 0, severity := .ALIGNED, stance := ("BULLISH", "NEUTRAL"),
              covered_call_bias := ("UPSIDE", "INCOME"), confidence := (0.8, 0.6),
              stance_divergence := 0, bias_divergence := 0,
              confidence_divergence := 0,
              action_hint := "Proceed with deterministic recommendation" }) true =
      .ok { stance := .BULLISH, covered_call_bias := .UPSIDE, confidence := 0.8,
            source := .DETERMINISTIC,
            rationale := "severity=ALIGNED; prefer deterministic" } :=
  C4_resolution_aligned_minor .LLM ⟨.BULLISH, .UPSIDE, 0.8, [], []⟩
    (some ⟨.NEUTRAL, .INCOME, 0.6, [], []⟩) none _ true (Or.inl rfl)
    (by simp)

/-! ## Debate gate and debate nodes (`agents/debate_agents.py`) -/

/-- `graph/state.py`: `class AgentArgument(BaseModel)` (the pre-validation
coercions normalise raw LLM payloads and are not part of the node logic). -/
structure AgentArgument where
  stance : Stance
  covered_call_bias : CoveredCallBias
  confidence : ℚ := 0.6
  bullets : List String := []
  risks : List String := []
deriving DecidableEq, Repr

/-- `graph/state.py`: `class DebateSummary(BaseModel)`. -/
structure DebateSummary where
  bull : AgentArgument
  bear : AgentArgument
  synthesis : List String := []
  disagreements : List String := []
deriving DecidableEq, Repr

/-- The slice of `GraphState` read by the debate nodes. `llm_present`
models `state.llm is not None`. -/
structure DebateState where
  config : Config := {}
  divergence_report : Option DivergenceReport := none
  fundamentals_snapshot : Option FundamentalSnapshot := none
  llm_present : Bool := false
  bull_case : Option AgentArgument := none
  bear_case : Option AgentArgument := none
  debate_summary : Option DebateSummary := none

/-- `debate_agents.py` lines 445–458, `_debate_enabled`: force_debate, or
divergence severity in MAJOR/CRITICAL/EXTREME. -/
def _debate_enabled (state : DebateState) : Bool :=
  if state.config.fundamentals.force_debate then true
  else
    match state.divergence_report with
    | none => false
    | some dr => decide (dr.severity = .MAJOR ∨ dr.severity = .CRITICAL ∨
        dr.severity = .EXTREME)

/-- The fallback `AgentArgument` built by `bull_node` on backend failure. -/
def bull_fallback : AgentArgument :=
  { stance := .NEUTRAL
    covered_call_bias := .INCOME
    confidence := 0.30
    bullets := ["Bull case unavailable (LLM timeout); continuing without it."]
    risks := ["Debate may be incomplete due to bull-side timeout."] }

/-- The fallback `AgentArgument` built by `bear_node` on backend failure. -/
def bear_fallback : AgentArgument :=
  { stance := .NEUTRAL
    covered_call_bias := .CAUTION
    confidence := 0.30
    bullets := ["Bear case unavailable (LLM timeout); continuing without it."]
    risks := ["Debate may be incomplete due to bear-side timeout."] }

/-- `debate_agents.py` lines 464–494, `bull_node`.  `backend` is the outcome
of the single `generate_json` call (`.error` = any raised exception); a
node's empty update `{}` is `.ok none`. -/
def bull_node (state : DebateState) (backend : Except String AgentArgument) :
    Except String (Option AgentArgument) :=
  if _debate_enabled state = false then .ok none
  else if state.fundamentals_snapshot.isNone then
    .error "bull_node: fundamentals_snapshot missing"
  else if state.llm_present = false then
    .error "bull_node: state.llm is None (mode=llm required)"
  else
    match backend with
    | .ok bull => .ok (some bull)
    | .error _ => .ok (some bull_fallback)

/-- `debate_agents.py` lines 497–527, `bear_node`. -/
def bear_node (state : DebateState) (backend : Except String AgentArgument) :
    Except String (Option AgentArgument) :=
  if _debate_enabled state = false then .ok none
  else if state.fundamentals_snapshot.isNone then
    .error "bear_node: fundamentals_snapshot missing"
  else if state.llm_present = false then
    .error "bear_node: state.llm is None (mode=llm required)"
  else
    match backend with
    | .ok bear => .ok (some bear)
    | .error _ => .ok (some bear_fallback)

/-- The substitute argument used by `debate_node` when a side is missing. -/
def debate_missing_arg : AgentArgument :=
  { stance := .NEUTRAL, covered_call_bias := .INCOME, confidence := 0.30
    bullets := [], risks := [] }

/-- `debate_agents.py` lines 530–597, `debate_node` (the synthesis node):
gate check, idempotence on an existing summary, hard requirements, the
missing-side shortcut, then the backend call with its parse-failure
fallback. -/
def debate_node (state : DebateState) (backend : Except String DebateSummary) :
    Except String (Option DebateSummary) :=
  if _debate_enabled state = false then .ok none
  else if state.debate_summary.isSome then .ok none
  else if state.fundamentals_snapshot.isNone then
    .error "debate_node: fundamentals_snapshot missing"
  else if state.llm_present = false then
    .error "debate_node: state.llm is None (mode=llm required)"
  else
    match state.bull_case, state.bear_case with
    | some bull, some bear =>
      (match backend with
       | .ok debate => .ok (some debate)
       | .error e => .ok (some
           { bull := bull, bear := bear
             synthesis := ["Debate JSON parse failed; fallback used (" ++ e ++ ")."]
             disagreements := [] }))
    | mbull, mbear => .ok (some
        { bull := mbull.getD debate_missing_arg
          bear := mbear.getD debate_missing_arg
          synthesis := ["Debate skipped: missing bull_case and/or bear_case."]
          disagreements := [] })

/-! ## Claim C5 -/

/-- C5: the debate gate fires exactly when `force_debate` is set or the
divergence severity is MAJOR/CRITICAL/EXTREME; when it is off the bull,
bear and debate-synthesis nodes each return the empty update for every
backend behaviour (so no backend call is consumed); severity CRITICAL fires
the gate regardless of `force_debate`. -/
theorem C5_debate_gate (state : DebateState) :
    (_debate_enabled state = true ↔
      state.config.fundamentals.force_debate = true ∨
      (∃ dr, state.divergence_report = some dr ∧
        (dr.severity = .MAJOR ∨ dr.severity = .CRITICAL ∨ dr.severity = .EXTREME))) ∧
    (_debate_enabled state = false →
      ∀ (b1 b2 : Except String AgentArgument) (b3 : Except String DebateSummary),
        bull_node state b1 = .ok none ∧ bear_node state b2 = .ok none ∧
          debate_node state b3 = .ok none) ∧
    (∀ dr, state.divergence_report = some dr → dr.severity = .CRITICAL →
      _debate_enabled state = true) := by
  refine ⟨?_, ?_, ?_⟩
  · unfold _debate_enabled
    rcases hf : state.config.fundamentals.force_debate <;>
      rcases hdr : state.divergence_report with _ | dr <;>
        simp [hf, hdr]
  · intro h b1 b2 b3
    refine ⟨?_, ?_, ?_⟩ <;> simp [bull_node, bear_node, debate_node, h]
  · intro dr hdr hc
    unfold _debate_enabled
    split_ifs
    · rfl
    · simp [hdr, hc]

/-- A concrete CRITICAL divergence report (for witnesses). -/
def criticalReport : DivergenceReport :=
  { score := 0.7
    severity := .CRITICAL
    stance := ("BULLISH", "BEARISH")
    covered_call_bias := ("UPSIDE", "CAUTION")
    confidence := (0.8, 0.8)
    stance_divergence := 1
    bias_divergence := 1
    confidence_divergence := 0
    action_hint := "Require manual review or run debate/second pass" }

/-- Witness for C5: with debate off (no force flag, no report) all three
nodes are no-ops on a failing backend; and a CRITICAL report fires the gate
even with `force_debate = false`. -/
theorem C5_debate_gate_witness :
    bull_node {} (.error "boom") = .ok none ∧
    _debate_enabled { divergence_report := some criticalReport } = true :=
  ⟨((C5_debate_gate {}).2.1 rfl (.error "boom") (.error "boom") (.error "boom")).1,
   (C5_debate_gate { divergence_report := some criticalReport }).2.2 criticalReport rfl rfl⟩

/-! ## Trade-action policy (`trade_policy/stance_action.py`) -/

/-- `stance_action.py`: `@dataclass(frozen=True) class TradePolicyDecision`. -/
structure TradePolicyDecision where
  action : TradeAction
  reason : String
deriving DecidableEq, Repr

/-- The interpolated weak-signal reason string
`f"Confidence ... < ...; avoid acting on weak signal."`. -/
def weak_signal_reason (confidence min_confidence : ℚ) : String :=
  "Confidence " ++ fmtFixed 2 confidence ++ " < " ++ fmtFixed 2 min_confidence ++
    "; avoid acting on weak signal."

/-- `stance_action.py` lines 21–96, `decide_trade_action`.  With the closed
`Stance`/`CoveredCallBias` enums every combination is matched, so the
source's final never-crash fallback (`default HOLD` for unknown enum values)
is unreachable here; the per-stance trailing returns cover exactly the
remaining bias as in the source. -/
def decide_trade_action (stance : Stance) (bias : CoveredCallBias)
    (confidence : ℚ) (min_confidence : ℚ := 0.55) : TradePolicyDecision :=
  if confidence < min_confidence then
    { action := .HOLD, reason := weak_signal_reason confidence min_confidence }
  else
    match stance, bias with
    | .BULLISH, .UPSIDE =>
        ⟨.AVOID_CALLS, "Bullish + UPSIDE: avoid capping upside with covered calls."⟩
    | .BULLISH, .INCOME =>
        ⟨.SELL_CALL_MORE_OTM,
         "Bullish + INCOME: if writing calls, prefer more OTM strikes to preserve upside."⟩
    | .BULLISH, .CAUTION =>
        ⟨.SELL_CALL_MORE_OTM, "Bullish with caution: write calls only if needed; prefer more OTM."⟩
    | .NEUTRAL, .INCOME =>
        ⟨.SELL_CALL, "Neutral + INCOME: baseline covered call posture."⟩
    | .NEUTRAL, .UPSIDE =>
        ⟨.HOLD, "Neutral + UPSIDE: wait rather than cap upside without strong conviction."⟩
    | .NEUTRAL, .CAUTION =>
        ⟨.HOLD, "Neutral + CAUTION: default to waiting."⟩
    | .BEARISH, .INCOME =>
        ⟨.SELL_CALL,
         "Bearish + INCOME: covered calls can reduce basis; prefer closer-to-money if desired (execution layer)."⟩
    | .BEARISH, .CAUTION =>
        ⟨.CLOSE_OR_ROLL,
         "Bearish + CAUTION: reduce risk; if short calls exist, consider roll/close; otherwise avoid new calls."⟩
    | .BEARISH, .UPSIDE =>
        ⟨.AVOID_CALLS, "Bearish + UPSIDE mismatch: avoid new calls; signal conflict."⟩

/-! ## Claim C6 -/

/-- C6: confidence strictly below `min_confidence` short-circuits to HOLD
with the weak-signal reason for every stance and bias; and on every input
the policy returns exactly one decision (it is a total function — the
embedding would not typecheck otherwise — and pure). -/
theorem C6_trade_policy (stance : Stance) (bias : CoveredCallBias)
    (confidence min_confidence : ℚ) :
    (confidence < min_confidence →
      decide_trade_action stance bias confidence min_confidence =
        ⟨.HOLD, weak_signal_reason confidence min_confidence⟩) ∧
    (∃! d : TradePolicyDecision,
      decide_trade_action stance bias confidence min_confidence = d) := by
  constructor
  · intro h
    unfold decide_trade_action
    rw [if_pos h]
  · exact ⟨_, rfl, fun d hd => hd.symm⟩

/-- Witness for C6: confidence 0.30 below the default threshold 0.55 yields
HOLD for a bullish/upside view. -/
theorem C6_trade_policy_witness :
    decide_trade_action .BULLISH .UPSIDE 0.30 0.55 =
      ⟨.HOLD, weak_signal_reason 0.30 0.55⟩ :=
  (C6_trade_policy .BULLISH .UPSIDE 0.30 0.55).1 (by norm_num)

/-! ## LLM evaluator node (`agents/llm_node.py`) -/

/-- `llm_node.py`: `class LLMFundamentalsPayload(BaseModel)`. -/
structure LLMFundamentalsPayload where
  stance : Stance
  covered_call_bias : CoveredCallBias
  confidence : ℚ
  bullets : List String := []
  risks : List String := []
deriving DecidableEq, Repr

/-- The three exception classes distinguished by `llm_node`
(`httpx.TimeoutException`; `ValidationError`/`ValueError`/`TypeError`;
anything else).  All are handled identically up to the log line. -/
inductive LLMFailure where
  | timeout
  | validation
  | other
deriving DecidableEq, Repr

/-- The slice of `GraphState` read by `llm_node`. -/
structure LLMState where
  llm_fundamentals : Option FundamentalsView := none
  fundamentals_snapshot : Option FundamentalSnapshot := none
  llm_present : Bool := false
  det_fundamentals : Option FundamentalsView := none

/-- `llm_node.py` lines 67–78, `_fallback_from_det`: the deterministic
baseline (or a last-resort neutral view) with confidence capped at 0.60. -/
def _fallback_from_det (state : LLMState) : FundamentalsView :=
  let fallback := state.det_fundamentals.getD
    { stance := .NEUTRAL
      covered_call_bias := .INCOME
      confidence := 0.30
      key_points := ["LLM fundamentals unavailable; proceeding without it."]
      risks := [] }
  { fallback with confidence := min fallback.confidence 0.60 }

/-- `llm_node.py` lines 81–140, `llm_node`. `backend` is the outcome of the
single `generate_json` call. -/
def llm_node (state : LLMState)
    (backend : Except LLMFailure LLMFundamentalsPayload) :
    Except String (Option FundamentalsView) :=
  if state.llm_fundamentals.isSome then .ok none
  else if state.fundamentals_snapshot.isNone then
    .error "llm_node: fundamentals_snapshot missing"
  else if state.llm_present = false then .ok none
  else
    match backend with
    | .ok payload => .ok (some
        { stance := payload.stance
          covered_call_bias := payload.covered_call_bias
          confidence := payload.confidence
          key_points := payload.bullets.take 4
          risks := payload.risks.take 2 })
    | .error _ => .ok (some (_fallback_from_det state))

/-! ## Claim C7 -/

/-- C7: on every backend failure (timeout, schema validation, or any other
exception) the LLM node returns the deterministic baseline View with its
confidence replaced by `min(confidence, 0.60)` instead of propagating the
error; and if an LLM View already exists in the state it returns the empty
update for every backend behaviour. -/
theorem C7_llm_node_fallback (state : LLMState) (det : FundamentalsView)
    (snap : FundamentalSnapshot) :
    (∀ e : LLMFailure,
      state.llm_fundamentals = none →
      state.fundamentals_snapshot = some snap →
      state.llm_present = true →
      state.det_fundamentals = some det →
      llm_node state (.error e) =
        .ok (some { det with confidence := min det.confidence 0.60 })) ∧
    (∀ backend, state.llm_fundamentals.isSome →
      llm_node state backend = .ok none) := by
  constructor
  · intro e h1 h2 h3 h4
    simp [llm_node, _fallback_from_det, h1, h2, h3, h4]
  · intro backend h
    simp [llm_node, h]

/-- Witness for C7: a timeout with det = BULLISH/UPSIDE/0.8 present yields
the capped baseline; a state that already has an LLM view is a no-op. -/
theorem C7_llm_node_fallback_witness :
    llm_node
      { fundamentals_snapshot := some { ticker := "W" }
        llm_present := true
        det_fundamentals := some ⟨.BULLISH, .UPSIDE, 0.8, [], []⟩ } (.error .timeout) =
      .ok (some ⟨.BULLISH, .UPSIDE, min (0.8 : ℚ) 0.60, [], []⟩) ∧
    llm_node { llm_fundamentals := some ⟨.NEUTRAL, .INCOME, 0.5, [], []⟩ }
      (.error .other) = .ok none :=
  ⟨(C7_llm_node_fallback _ ⟨.BULLISH, .UPSIDE, 0.8, [], []⟩ { ticker := "W" }).1
      .timeout rfl rfl rfl rfl,
   (C7_llm_node_fallback { llm_fundamentals := some ⟨.NEUTRAL, .INCOME, 0.5, [], []⟩ }
      ⟨.NEUTRAL, .INCOME, 0.5, [], []⟩ { ticker := "W" }).2 (.error .other) rfl⟩

/-! ## String helpers for the Python `str` methods used by the pipeline -/

/-- The ASCII whitespace recognised by Python `str.strip` (unicode
whitespace beyond ASCII does not occur in the pipeline's strings). -/
def isPySpace (c : Char) : Bool :=
  c == ' ' || c == '\t' || c == '\n' || c == '\r' || c == '\x0b' || c == '\x0c'

/-- `str.strip()` on the character list. -/
def stripData (l : List Char) : List Char :=
  ((l.dropWhile isPySpace).reverse.dropWhile isPySpace).reverse

/-- `str.strip()`. -/
def pyStrip (s : String) : String := ⟨stripData s.data⟩

/-- `str.rstrip()`. -/
def pyRStrip (s : String) : String := ⟨(s.data.reverse.dropWhile isPySpace).reverse⟩

/-- `str.upper()` (ASCII; the aliases compared against are ASCII). -/
def pyUpper (s : String) : String := s.map Char.toUpper

/-- `sep.join(xs)`. -/
def joinWith (sep : String) : List String → String
  | [] => ""
  | [x] => x
  | x :: y :: xs => x ++ sep ++ joinWith sep (y :: xs)

/-! ## Agentic evaluator (`agents/agentic_node.py`, `agentic/agentic_contracts.py`) -/

/-- `agentic_contracts.py`: `class AgenticAction(str, Enum)`. -/
inductive AgenticAction where
  | CALL_TOOL
  | PROPOSE
  | ABSTAIN
deriving DecidableEq, Repr

/-- `agentic_contracts.py`: `class ToolCall(BaseModel)` (`args` is a JSON
dict opaque to the loop; modelled as string pairs). -/
structure ToolCall where
  tool : String
  args : List (String × String) := []
deriving DecidableEq, Repr

/-- `agentic_contracts.py`: `class ToolResult(BaseModel)`. -/
structure ToolResult where
  tool : Option String := none
  ok : Bool := true
  result : List (String × String) := []
  error : Option String := none
deriving DecidableEq, Repr

/-- `agentic_contracts.py`: `class AgenticResponse(BaseModel)` (after
validation; the `stance`/`covered_call_bias` fields are `Optional[str]`). -/
structure AgenticResponse where
  action : AgenticAction
  tool_call : Option ToolCall := none
  summary : String := ""
  confidence : ℚ := 0.5
  stance : Option String := none
  covered_call_bias : Option String := none
  bullets : List String := []
  risks : List String := []
deriving DecidableEq, Repr

/-- `agentic_node.py` line 16. -/
def MAX_TURNS : ℕ := 3

/-- `agentic_node.py` line 17. -/
def MAX_TOOL_CALLS : ℕ := 2

/-- `agentic_node.py` lines 34–44, `_coerce_stance` (on the validated
`Optional[str]` field; the `isinstance(x, Stance)` branch cannot occur for
that field). -/
def _coerce_stance (x : Option String) : Stance :=
  match x with
  | none => .NEUTRAL
  | some s =>
    let u := pyUpper (pyStrip s)
    if u = "BULLISH" ∨ u = "BULL" ∨ u = "LONG" ∨ u = "BUY" then .BULLISH
    else if u = "BEARISH" ∨ u = "BEAR" ∨ u = "SHORT" ∨ u = "SELL" then .BEARISH
    else .NEUTRAL

/-- `agentic_node.py` lines 47–57, `_coerce_bias`. -/
def _coerce_bias (x : Option String) : CoveredCallBias :=
  match x with
  | none => .INCOME
  | some s =>
    let u := pyUpper (pyStrip s)
    if u = "UPSIDE" ∨ u = "UP" ∨ u = "GROWTH" then .UPSIDE
    else if u = "CAUTION" ∨ u = "DEFENSIVE" ∨ u = "RISK_OFF" then .CAUTION
    else .INCOME

/-- `agentic_node.py` lines 60–64, `_has_min_numeric_grounding`: at least
two digit characters across the space-joined bullets. -/
def _has_min_numeric_grounding (resp : AgenticResponse) : Bool :=
  decide (2 ≤ (joinWith " " resp.bullets).data.countP Char.isDigit)

/-- One backend interaction of the agentic loop as observed by the loop
body: either a validated `AgenticResponse`, or a `continue` that only
records `last_error` (raised exception, empty output, JSON-extraction or
validation failure, or the text-path repair for a JSON object missing the
`action` field — all are `continue`s differing only in the message). -/
inductive TurnOutcome where
  | err (msg : String)
  | resp (r : AgenticResponse)

/-- The slice of `GraphState` read by `agentic_node`. -/
structure AgenticState where
  agentic_result : Option AgenticResponse := none
  llm_present : Bool := false
  fundamentals_snapshot : Option FundamentalSnapshot := none

/-- The four-key state update returned by `agentic_node` on the accepting
and exhaustion exits. -/
structure AgenticUpdate where
  agentic_result : AgenticResponse
  agentic_tool_history : List ToolResult
  agentic_fundamentals : FundamentalsView
  llm_fundamentals : FundamentalsView
deriving DecidableEq, Repr

/-- The repair message sent for an ungrounded PROPOSE. -/
def grounding_error : String :=
  "Your PROPOSE must cite at least two snapshot numbers in bullets (e.g., Revenue YoY %, Operating margin %, Debt-to-equity, Price)."

/-- The accepting exit of `agentic_node` (lines 165–178): the view built
from the response (`confidence or 0.5` maps a 0.0 confidence to 0.5) is
written to both `agentic_fundamentals` and `llm_fundamentals`. -/
def agentic_accept (r : AgenticResponse) (hist : List ToolResult) : AgenticUpdate :=
  let fv : FundamentalsView :=
    { stance := _coerce_stance r.stance
      covered_call_bias := _coerce_bias r.covered_call_bias
      confidence := if r.confidence = 0 then 0.5 else r.confidence
      key_points := r.bullets
      risks := r.risks }
  { agentic_result := r
    agentic_tool_history := hist
    agentic_fundamentals := fv
    llm_fundamentals := fv }

/-- The exhaustion exit of `agentic_node` (lines 182–208): terminal ABSTAIN
response and NEUTRAL/INCOME/0.0 view, risks listing the failure cause. -/
def agentic_fallback (last_error : Option String) (hist : List ToolResult) : AgenticUpdate :=
  let risks : List String :=
    ["LLM output failed validation or exceeded limits."] ++
      (match last_error with | some e => [e] | none => [])
  let fallbackResp : AgenticResponse :=
    { action := .ABSTAIN
      summary := "Agentic loop failed; defaulting to ABSTAIN."
      confidence := 0
      stance := none
      covered_call_bias := none
      bullets := []
      risks := risks }
  let fv : FundamentalsView :=
    { stance := .NEUTRAL
      covered_call_bias := .INCOME
      confidence := 0
      key_points := []
      risks := risks }
  { agentic_result := fallbackResp
    agentic_tool_history := hist
    agentic_fundamentals := fv
    llm_fundamentals := fv }

/-- The `for _turn in range(MAX_TURNS)` loop of `agentic_node`
(lines 99–208), fuel-indexed.  `backend i` is the (deterministic) outcome of
the i-th backend interaction; `dispatch` is `dispatch_agentic_tool`.
Arguments after the fuel: next interaction index, `tool_calls`,
`tool_history`, `last_error`. -/
def agentic_loop (snapPresent : Bool) (dispatch : ToolCall → ToolResult)
    (backend : ℕ → TurnOutcome) :
    ℕ → ℕ → ℕ → List ToolResult → Option String → AgenticUpdate
  | 0, _, _, hist, last_error => agentic_fallback last_error hist
  | n + 1, i, tc, hist, last_error =>
    match backend i with
    | .err m => agentic_loop snapPresent dispatch backend n (i + 1) tc hist (some m)
    | .resp r =>
      match r.action with
      | .CALL_TOOL =>
        (match r.tool_call with
         | none => agentic_loop snapPresent dispatch backend n (i + 1) tc hist
             (some "CALL_TOOL requires tool_call")
         | some c =>
           if MAX_TOOL_CALLS ≤ tc then
             agentic_loop snapPresent dispatch backend n (i + 1) tc hist
               (some "Tool call limit reached")
           else
             agentic_loop snapPresent dispatch backend n (i + 1) (tc + 1)
               (hist ++ [dispatch c]) none)
      | .PROPOSE =>
        if snapPresent = true ∧ _has_min_numeric_grounding r = false then
          agentic_loop snapPresent dispatch backend n (i + 1) tc hist (some grounding_error)
        else agentic_accept r hist
      | .ABSTAIN => agentic_accept r hist

/-- `agentic_node.py` lines 67–208: idempotence guard, hard requirement on
the LLM client, then the bounded loop. -/
def agentic_node (state : AgenticState) (dispatch : ToolCall → ToolResult)
    (backend : ℕ → TurnOutcome) : Except String (Option AgenticUpdate) :=
  if state.agentic_result.isSome then .ok none
  else if state.llm_present = false then .error "agentic_node: state.llm missing"
  else .ok (some (agentic_loop state.fundamentals_snapshot.isSome dispatch backend
      MAX_TURNS 0 0 [] none))

/-! ## Claims C8 and C10 -/

/-- A backend interaction that cannot exit the loop: an error `continue`, a
CALL_TOOL, or a PROPOSE that fails the grounding check while a snapshot is
present.  (This is a pure predicate of the outcome because the grounding
check depends only on the response and on snapshot presence.) -/
def non_accepting (snapPresent : Bool) : TurnOutcome → Prop
  | .err _ => True
  | .resp r => r.action = .CALL_TOOL ∨
      (r.action = .PROPOSE ∧ snapPresent = true ∧ _has_min_numeric_grounding r = false)

/-- Invariant: the tool history length equals the tool-call counter, which
the guard keeps at most `MAX_TOOL_CALLS`. -/
lemma agentic_loop_hist_length (snapPresent : Bool) (dispatch : ToolCall → ToolResult)
    (backend : ℕ → TurnOutcome) :
    ∀ (n i tc : ℕ) (hist : List ToolResult) (lastErr : Option String),
      hist.length = tc → tc ≤ MAX_TOOL_CALLS →
      (agentic_loop snapPresent dispatch backend n i tc hist
        lastErr).agentic_tool_history.length ≤ MAX_TOOL_CALLS := by
  intro n
  induction n with
  | zero =>
    intro i tc hist lastErr h1 h2
    simp only [agentic_loop, agentic_fallback]
    exact h1.trans_le h2
  | succ n ih =>
    intro i tc hist lastErr h1 h2
    simp only [agentic_loop]
    cases hb : backend i with
    | err m => exact ih _ _ _ _ h1 h2
    | resp r =>
      dsimp only
      cases ha : r.action with
      | CALL_TOOL =>
        dsimp only
        cases hc : r.tool_call with
        | none => exact ih _ _ _ _ h1 h2
        | some c =>
          dsimp only
          by_cases htc : MAX_TOOL_CALLS ≤ tc
          · rw [if_pos htc]
            exact ih _ _ _ _ h1 h2
          · rw [if_neg htc]
            exact ih _ _ _ _ (by simp [h1]) (Nat.succ_le_of_lt (lt_of_not_ge htc))
      | PROPOSE =>
        dsimp only
        by_cases hp : snapPresent = true ∧ _has_min_numeric_grounding r = false
        · rw [if_pos hp]
          exact ih _ _ _ _ h1 h2
        · rw [if_neg hp]
          simp only [agentic_accept]
          exact h1.trans_le h2
      | ABSTAIN =>
        simp only [agentic_accept]
        exact h1.trans_le h2

/-- Both result exits write the same view to both fundamentals slots. -/
lemma agentic_loop_views_eq (snapPresent : Bool) (dispatch : ToolCall → ToolResult)
    (backend : ℕ → TurnOutcome) :
    ∀ (n i tc : ℕ) (hist : List ToolResult) (lastErr : Option String),
      (agentic_loop snapPresent dispatch backend n i tc hist
        lastErr).agentic_fundamentals =
      (agentic_loop snapPresent dispatch backend n i tc hist
        lastErr).llm_fundamentals := by
  intro n
  induction n with
  | zero => intro i tc hist lastErr; rfl
  | succ n ih =>
    intro i tc hist lastErr
    simp only [agentic_loop]
    cases hb : backend i with
    | err m => exact ih _ _ _ _
    | resp r =>
      dsimp only
      cases ha : r.action with
      | CALL_TOOL =>
        dsimp only
        cases hc : r.tool_call with
        | none => exact ih _ _ _ _
        | some c =>
          dsimp only
          by_cases htc : MAX_TOOL_CALLS ≤ tc
          · rw [if_pos htc]; exact ih _ _ _ _
          · rw [if_neg htc]; exact ih _ _ _ _
      | PROPOSE =>
        dsimp only
        by_cases hp : snapPresent = true ∧ _has_min_numeric_grounding r = false
        · rw [if_pos hp]; exact ih _ _ _ _
        · rw [if_neg hp]; rfl
      | ABSTAIN => rfl

/-- The loop result depends only on the backend outcomes of the turns it
can reach. -/
lemma agentic_loop_backend_agree (snapPresent : Bool) (dispatch : ToolCall → ToolResult)
    (b b2 : ℕ → TurnOutcome) :
    ∀ (n i tc : ℕ) (hist : List ToolResult) (lastErr : Option String),
      (∀ j, i ≤ j → j < i + n → b j = b2 j) →
      agentic_loop snapPresent dispatch b n i tc hist lastErr =
      agentic_loop snapPresent dispatch b2 n i tc hist lastErr := by
  intro n
  induction n with
  | zero => intro i tc hist lastErr _; rfl
  | succ n ih =>
    intro i tc hist lastErr h
    have hnext : ∀ j, i + 1 ≤ j → j < (i + 1) + n → b j = b2 j := by
      intro j hj1 hj2
      exact h j (by omega) (by omega)
    have hb0 : b2 i = b i := (h i le_rfl (by omega)).symm
    simp only [agentic_loop, hb0]
    cases hb : b i with
    | err m => exact ih _ _ _ _ hnext
    | resp r =>
      dsimp only
      cases ha : r.action with
      | CALL_TOOL =>
        dsimp only
        cases hc : r.tool_call with
        | none => exact ih _ _ _ _ hnext
        | some c =>
          dsimp only
          by_cases htc : MAX_TOOL_CALLS ≤ tc
          · simp only [if_pos htc]; exact ih _ _ _ _ hnext
          · simp only [if_neg htc]; exact ih _ _ _ _ hnext
      | PROPOSE =>
        dsimp only
        by_cases hp : snapPresent = true ∧ _has_min_numeric_grounding r = false
        · simp only [if_pos hp]; exact ih _ _ _ _ hnext
        · simp only [if_neg hp]
      | ABSTAIN => rfl

/-- A run whose reachable turns are all non-accepting lands in the
exhaustion fallback. -/
lemma agentic_loop_exhaust (snapPresent : Bool) (dispatch : ToolCall → ToolResult)
    (backend : ℕ → TurnOutcome) :
    ∀ (n i tc : ℕ) (hist : List ToolResult) (lastErr : Option String),
      (∀ j, i ≤ j → j < i + n → non_accepting snapPresent (backend j)) →
      ∃ le2 hist2, agentic_loop snapPresent dispatch backend n i tc hist lastErr =
        agentic_fallback le2 hist2 := by
  intro n
  induction n with
  | zero => intro i tc hist lastErr _; exact ⟨lastErr, hist, rfl⟩
  | succ n ih =>
    intro i tc hist lastErr h
    have hnext : ∀ j, i + 1 ≤ j → j < (i + 1) + n →
        non_accepting snapPresent (backend j) := by
      intro j hj1 hj2
      exact h j (by omega) (by omega)
    have h0 : non_accepting snapPresent (backend i) := h i le_rfl (by omega)
    simp only [agentic_loop]
    cases hb : backend i with
    | err m => exact ih _ _ _ _ hnext
    | resp r =>
      dsimp only
      rw [hb] at h0
      simp only [non_accepting] at h0
      cases ha : r.action with
      | CALL_TOOL =>
        dsimp only
        cases hc : r.tool_call with
        | none => exact ih _ _ _ _ hnext
        | some c =>
          dsimp only
          by_cases htc : MAX_TOOL_CALLS ≤ tc
          · rw [if_pos htc]; exact ih _ _ _ _ hnext
          · rw [if_neg htc]; exact ih _ _ _ _ hnext
      | PROPOSE =>
        dsimp only
        rw [ha] at h0
        rcases h0 with h0 | ⟨_, hsnap, hgr⟩
        · exact absurd h0 (by simp)
        · rw [if_pos ⟨hsnap, hgr⟩]
          exact ih _ _ _ _ hnext
      | ABSTAIN =>
        rw [ha] at h0
        rcases h0 with h0 | ⟨h0, _, _⟩ <;> exact absurd h0 (by simp)

/-- C8: given an LLM client, the agentic node never raises (it always
returns an `ok` update); any produced update carries at most
`MAX_TOOL_CALLS` dispatched tool results; the result depends only on the
first `MAX_TURNS` backend interactions (the loop performs at most 3 turns);
and if every reachable turn is non-accepting (no accepted PROPOSE and no
voluntary ABSTAIN) the node returns the terminal ABSTAIN update: action
ABSTAIN, confidence 0.0, view NEUTRAL/INCOME/0.0 with risks listing the
failure cause. -/
theorem C8_agentic_node_bounded (state : AgenticState)
    (dispatch : ToolCall → ToolResult) (backend : ℕ → TurnOutcome)
    (hllm : state.llm_present = true) :
    (∃ upd, agentic_node state dispatch backend = .ok upd) ∧
    (∀ u, agentic_node state dispatch backend = .ok (some u) →
      u.agentic_tool_history.length ≤ MAX_TOOL_CALLS) ∧
    (∀ backend2, (∀ i, i < MAX_TURNS → backend i = backend2 i) →
      agentic_node state dispatch backend = agentic_node state dispatch backend2) ∧
    ((∀ i, i < MAX_TURNS →
        non_accepting state.fundamentals_snapshot.isSome (backend i)) →
      state.agentic_result = none →
      ∃ u, agentic_node state dispatch backend = .ok (some u) ∧
        u.agentic_result.action = .ABSTAIN ∧
        u.agentic_result.confidence = 0 ∧
        u.agentic_fundamentals.stance = .NEUTRAL ∧
        u.agentic_fundamentals.covered_call_bias = .INCOME ∧
        u.agentic_fundamentals.confidence = 0 ∧
        u.agentic_fundamentals.risks.head? =
          some "LLM output failed validation or exceeded limits.") := by
  refine ⟨?_, ?_, ?_, ?_⟩
  · by_cases h : state.agentic_result.isSome
    · exact ⟨none, by simp [agentic_node, h]⟩
    · refine ⟨some (agentic_loop state.fundamentals_snapshot.isSome dispatch backend
        MAX_TURNS 0 0 [] none), ?_⟩
      simp [agentic_node, h, hllm]
  · intro u hu
    by_cases h : state.agentic_result.isSome
    · simp [agentic_node, h] at hu
    · simp [agentic_node, h, hllm] at hu
      subst hu
      exact agentic_loop_hist_length _ _ _ _ _ _ _ _ rfl (by norm_num [MAX_TOOL_CALLS])
  · intro backend2 hpre
    unfold agentic_node
    by_cases h : state.agentic_result.isSome
    · simp [h]
    · simp only [h, if_false]
      rw [agentic_loop_backend_agree state.fundamentals_snapshot.isSome dispatch backend backend2
        MAX_TURNS 0 0 [] none (by intro j hj1 hj2; exact hpre j (by omega))]
  · intro hna hres
    obtain ⟨le2, hist2, hloop⟩ := agentic_loop_exhaust
      state.fundamentals_snapshot.isSome dispatch backend MAX_TURNS 0 0 [] none
      (by intro j hj1 hj2; exact hna j (by omega))
    refine ⟨agentic_fallback le2 hist2, ?_, ?_, ?_, ?_, ?_, ?_, ?_⟩
    · simp [agentic_node, hres, hllm, hloop]
    · rfl
    · rfl
    · rfl
    · rfl
    · rfl
    · cases le2 <;> rfl

/-- Witness for C8: an always-erroring backend with an LLM client present
reaches the terminal ABSTAIN update. -/
theorem C8_agentic_node_bounded_witness :
    ∃ u, agentic_node { llm_present := true } (fun _ => {}) (fun _ => .err "boom") =
        .ok (some u) ∧
      u.agentic_result.action = .ABSTAIN ∧
      u.agentic_result.confidence = 0 ∧
      u.agentic_fundamentals.stance = .NEUTRAL ∧
      u.agentic_fundamentals.covered_call_bias = .INCOME ∧
      u.agentic_fundamentals.confidence = 0 ∧
      u.agentic_fundamentals.risks.head? =
        some "LLM output failed validation or exceeded limits." :=
  (C8_agentic_node_bounded { llm_present := true } (fun _ => {})
    (fun _ => .err "boom") rfl).2.2.2 (fun _ _ => trivial) rfl

/-- C10: whenever the agentic node produces a result update (accepted
PROPOSE/ABSTAIN or exhaustion fallback), the identical view is written to
both the `agentic_fundamentals` and `llm_fundamentals` state fields. -/
theorem C10_agentic_dual_write (state : AgenticState)
    (dispatch : ToolCall → ToolResult) (backend : ℕ → TurnOutcome) :
    ∀ u, agentic_node state dispatch backend = .ok (some u) →
      u.agentic_fundamentals = u.llm_fundamentals := by
  intro u hu
  by_cases h : state.agentic_result.isSome
  · simp [agentic_node, h] at hu
  · by_cases h2 : state.llm_present = false
    · simp [agentic_node, h, h2] at hu
    · simp [agentic_node, h, h2] at hu
      subst hu
      exact agentic_loop_views_eq _ _ _ _ _ _ _ _

/-- Witness for C10: the terminal fallback of an always-erroring backend
has equal views in both slots. -/
theorem C10_agentic_dual_write_witness :
    (agentic_fallback (some "boom") []).agentic_fundamentals =
      (agentic_fallback (some "boom") []).llm_fundamentals :=
  C10_agentic_dual_write { llm_present := true } (fun _ => {})
    (fun _ => .err "boom") (agentic_fallback (some "boom") []) rfl

/-! ## Report patching (`agents/debate_agents.py`, `proposal_node`) -/

/-- `graph/state.py`: `class FundamentalReport(BaseModel)` (the `explain`
payload is never read or written by the patch logic and is omitted). -/
structure FundamentalReport where
  ticker : String
  stance : Stance
  covered_call_bias : CoveredCallBias
  confidence : ℚ
  key_points : List String
  risks : List String := []
  snapshot : FundamentalSnapshot
  appendix : Option String := none
  action : Option TradeAction := none
  action_reason : Option String := none
deriving DecidableEq, Repr

/-- The slice of `GraphState` read by `proposal_node` when patching an
existing report. -/
structure ProposalState where
  config : Config := {}
  divergence_report : Option DivergenceReport := none
  agentic_fundamentals : Option FundamentalsView := none
  agentic_result : Option AgenticResponse := none
  debate_summary : Option DebateSummary := none

/-- Decimal rendering for Python `str(float)` inside the report templates
(e.g. `0.45`, `1.0`); up to six fractional digits, trailing zeros trimmed,
at least one kept.  The claims never depend on the rendered digits. -/
def decimalRepr (q : ℚ) : String :=
  let sign := if q < 0 then "-" else ""
  let a : ℚ := |q|
  let ip : ℕ := (ratFloor a).toNat
  let f6 : ℕ := (ratFloor ((a - (ratFloor a : ℚ)) * 1000000 + 1/2)).toNat
  let ip : ℕ := if f6 = 1000000 then ip + 1 else ip
  let f6 : ℕ := if f6 = 1000000 then 0 else f6
  let ds : String := toString f6
  let ds : String := String.mk (List.replicate (6 - ds.length) '0') ++ ds
  let ds : String := String.mk ((ds.data.reverse.dropWhile (· == '0')).reverse)
  let ds : String := if ds = "" then "0" else ds
  sign ++ toString ip ++ "." ++ ds

/-- `utils/divergence.py` lines 73–94, `format_divergence_report`. -/
def format_divergence_report (rep : Option DivergenceReport) : String :=
  match rep with
  | none => ""
  | some r =>
    "DIVERGENCE REPORT\n" ++
    "-----------------\n" ++
    "Score:      " ++ decimalRepr r.score ++ "\n" ++
    "Severity:   " ++ r.severity.value ++ "\n\n" ++
    "Stance:     DET=" ++ r.stance.1 ++ " | LLM=" ++ r.stance.2 ++ "\n" ++
    "Bias:       DET=" ++ r.covered_call_bias.1 ++ "  | LLM=" ++ r.covered_call_bias.2 ++ "\n" ++
    "Confidence: DET=" ++ decimalRepr r.confidence.1 ++ "  | LLM=" ++ decimalRepr r.confidence.2 ++ "\n\n" ++
    "Action:     " ++ r.action_hint ++ "\n" ++
    (match r.notes with
     | some n => "Notes:      " ++ n ++ "\n"
     | none => "")

/-- The `for i, s in enumerate(xs, 1): if s := str(s).strip(): append
f"{i}. {s}"` pattern (blank entries keep their number but emit no line). -/
def numberedLines (xs : List String) : List String :=
  ((List.range xs.length).zip xs).filterMap (fun p =>
    let t := pyStrip p.2
    if t = "" then none else some (toString (p.1 + 1) ++ ". " ++ t))

/-- `debate_agents.py` lines 87–134, `_format_agentic_block`. -/
def _format_agentic_block (state : ProposalState) : String :=
  match state.agentic_fundamentals, state.agentic_result with
  | none, none => ""
  | af, ar =>
    let summary : String := match ar with
      | some a => pyStrip a.summary
      | none => ""
    let summaryLines : List String :=
      if summary = "" then [] else ["Summary: " ++ summary]
    let stance_s : String := match af with
      | some v => v.stance.value
      | none => match ar with
        | some a => (match a.stance with
            | some s => if s = "" then "—" else s
            | none => "—")
        | none => "—"
    let bias_s : String := match af with
      | some v => v.covered_call_bias.value
      | none => match ar with
        | some a => (match a.covered_call_bias with
            | some s => if s = "" then "—" else s
            | none => "—")
        | none => "—"
    let conf_str : String := match af with
      | some v => fmtFixed 2 v.confidence
      | none => match ar with
        | some a => fmtFixed 2 a.confidence
        | none => "—"
    let bullets : List String := match af with
      | some v => v.key_points
      | none => []
    let bullets : List String :=
      if bullets = [] then (match ar with | some a => a.bullets | none => []) else bullets
    let risks : List String := match af with
      | some v => v.risks
      | none => []
    let risks : List String :=
      if risks = [] then (match ar with | some a => a.risks | none => []) else risks
    let bulletLines : List String :=
      if bullets = [] then []
      else ["Bullets", "-------"] ++ numberedLines (bullets.take 4) ++ [""]
    let riskLines : List String :=
      if risks = [] then []
      else ["Risks", "-----"] ++
        ((risks.take 4).filterMap (fun r =>
          let t := pyStrip r
          if t = "" then none else some ("- " ++ t))) ++ [""]
    pyRStrip (joinWith "\n"
      (["Agentic Fundamentals", "-------------------"] ++ summaryLines ++
        ["Stance: " ++ stance_s ++ " | Bias: " ++ bias_s ++ " | Confidence: " ++ conf_str,
         ""] ++ bulletLines ++ riskLines))

/-- `debate_agents.py` lines 44–84, `_format_debate_block`.  The
`model_dump()` of a `DebateSummary` carries no `summary`/`key_points` keys,
so those two branches of the source never write a line. -/
def _format_debate_block (state : ProposalState) : String :=
  match state.debate_summary with
  | none => ""
  | some ds =>
    let synLines := numberedLines (ds.synthesis.take 2)
    let disLines := numberedLines (ds.disagreements.take 2)
    let lines :=
      ["LLM Debate Summary", "-----------------"] ++
      (if ds.synthesis = [] then [] else ["", "Synthesis", "---------"] ++ synLines) ++
      (if ds.disagreements = [] then []
       else ["", "Disagreements", "-------------"] ++ disLines)
    if synLines = [] ∧ disLines = [] then "" else pyRStrip (joinWith "\n" lines)

/-- `debate_agents.py` lines 137–139, `_join_appendix`: strip each part,
drop the blank ones, join with a blank line. -/
def _join_appendix (parts : List String) : String :=
  let blocks := parts.filterMap (fun p =>
    let s := pyStrip p
    if s = "" then none else some s)
  joinWith "\n\n" blocks

/-- `proposal_node`'s `build_appendix` closure (lines 619–624):
`appendix or None`. -/
def build_appendix (state : ProposalState) : Option String :=
  let appendix := _join_appendix [format_divergence_report state.divergence_report,
    _format_agentic_block state, _format_debate_block state]
  if appendix = "" then none else some appendix

/-- `proposal_node`'s `_min_conf` closure (lines 626–627). -/
def _min_conf (state : ProposalState) : ℚ := state.config.trade_policy.min_confidence

/-- `debate_agents.py` lines 629–670: the branch of `proposal_node` taken
when `state.fundamentals_report` is present.  `none` models the empty
update `{}`; `some rep2` models `{"fundamentals_report": rep.model_copy(update=updates)}`.
Action and reason are backfilled only when `action` is missing; the
appendix only when missing or blank, and only if `build_appendix` yields
something. -/
def proposal_patch (state : ProposalState) (rep : FundamentalReport) :
    Option FundamentalReport :=
  let actionUpd : Option TradePolicyDecision :=
    match rep.action with
    | some _ => none
    | none => some (decide_trade_action rep.stance rep.covered_call_bias
        rep.confidence (_min_conf state))
  let appendixUpd : Option String :=
    match rep.appendix with
    | none => build_appendix state
    | some a => if pyStrip a = "" then build_appendix state else none
  match actionUpd, appendixUpd with
  | none, none => none
  | aU, apU => some
    { rep with
      action := match aU with | some d => some d.action | none => rep.action
      action_reason := match aU with | some d => some d.reason | none => rep.action_reason
      appendix := match apU with | some a => some a | none => rep.appendix }

/-! ## Claim C9 -/

/-- If `dropWhile` consumes the whole list, every element satisfied the
predicate. -/
lemma dropWhile_eq_nil_imp_all {α : Type} (p : α → Bool) :
    ∀ l : List α, l.dropWhile p = [] → ∀ c ∈ l, p c = true := by
  intro l
  induction l with
  | nil => intro _ c hc; simp at hc
  | cons a t ih =>
    intro h c hc
    by_cases pa : p a = true
    · rw [List.dropWhile_cons_of_pos pa] at h
      rcases List.mem_cons.mp hc with rfl | hct
      · exact pa
      · exact ih h c hct
    · rw [List.dropWhile_cons_of_neg (by simpa using pa)] at h
      exact absurd h (by simp)

/-- `dropWhile` keeps every element that fails the predicate. -/
lemma mem_dropWhile_of_neg {α : Type} (p : α → Bool) :
    ∀ (l : List α) (c : α), c ∈ l → p c = false → c ∈ l.dropWhile p := by
  intro l
  induction l with
  | nil => intro c hc; simp at hc
  | cons a t ih =>
    intro c hc hp
    by_cases pa : p a = true
    · rw [List.dropWhile_cons_of_pos pa]
      rcases List.mem_cons.mp hc with rfl | hct
      · rw [hp] at pa; cases pa
      · exact ih c hct hp
    · rw [List.dropWhile_cons_of_neg (by simpa using pa)]
      exact hc

/-- A list containing a non-whitespace character does not strip to empty. -/
lemma stripData_ne_nil {l : List Char} {c : Char}
    (hc : c ∈ l) (hp : isPySpace c = false) : stripData l ≠ [] := by
  intro h
  have h1 : (l.dropWhile isPySpace).reverse.dropWhile isPySpace = [] := by
    have := congrArg List.reverse h
    simpa [stripData] using this
  have h2 := dropWhile_eq_nil_imp_all isPySpace _ h1
  have h3 : c ∈ l.dropWhile isPySpace := mem_dropWhile_of_neg isPySpace l c hc hp
  have h4 : c ∈ (l.dropWhile isPySpace).reverse := List.mem_reverse.mpr h3
  have := h2 c h4
  rw [hp] at this
  cases this

/-- A non-empty strip result contains a non-whitespace character. -/
lemma exists_nonspace_of_stripData_ne_nil (l : List Char) (h : stripData l ≠ []) :
    ∃ c ∈ stripData l, isPySpace c = false := by
  by_contra hall
  push_neg at hall
  have hall2 : ∀ c ∈ (l.dropWhile isPySpace).reverse.dropWhile isPySpace,
      isPySpace c = true := by
    intro c hcmem
    have : c ∈ stripData l := by
      unfold stripData
      exact List.mem_reverse.mpr hcmem
    simpa using hall c this
  have hnil : (l.dropWhile isPySpace).reverse.dropWhile isPySpace = [] := by
    rcases hd : (l.dropWhile isPySpace).reverse.dropWhile isPySpace with _ | ⟨a, t⟩
    · rfl
    · have ha : isPySpace a = false := by
        have := List.head_dropWhile_not isPySpace (l.dropWhile isPySpace).reverse
          (by rw [hd]; simp)
        simpa [hd] using this
      have := hall2 a (by rw [hd]; simp)
      rw [ha] at this
      cases this
  exact h (by unfold stripData; rw [hnil]; rfl)

/-- `pyStrip` is empty exactly when the stripped character list is. -/
lemma pyStrip_eq_empty_iff (s : String) : pyStrip s = "" ↔ stripData s.data = [] := by
  constructor
  · intro h
    have := congrArg String.data h
    simpa [pyStrip] using this
  · intro h
    unfold pyStrip
    rw [h]

/-- A character of the first block occurs in the joined string. -/
lemma mem_data_joinWith_head (sep b0 : String) (rest : List String) (c : Char)
    (hc : c ∈ b0.data) : c ∈ (joinWith sep (b0 :: rest)).data := by
  cases rest with
  | nil => simpa [joinWith] using hc
  | cons y ys =>
    simp only [joinWith, String.data_append]
    exact List.mem_append_left _ (List.mem_append_left _ hc)

/-- The appendix produced by `build_appendix` is never blank: its first
block survived a strip, so it contains a non-whitespace character. -/
lemma build_appendix_nonblank (state : ProposalState) (a : String)
    (h : build_appendix state = some a) : ¬ pyStrip a = "" := by
  unfold build_appendix _join_appendix at h
  set parts : List String := [format_divergence_report state.divergence_report,
    _format_agentic_block state, _format_debate_block state] with hparts
  set blocks : List String := parts.filterMap (fun p =>
    let s := pyStrip p
    if s = "" then none else some s) with hblocks
  by_cases hj : joinWith "\n\n" blocks = ""
  · rw [if_pos hj] at h
    cases h
  · rw [if_neg hj] at h
    have ha : a = joinWith "\n\n" blocks := (Option.some.injEq _ _ ▸ h).symm
    rcases hbl : blocks with _ | ⟨b0, rest⟩
    · rw [hbl] at hj
      exact absurd rfl hj
    · have hb0 : ∃ p ∈ parts, (let s := pyStrip p;
          if s = "" then none else some s) = some b0 := by
        have : b0 ∈ blocks := by rw [hbl]; simp
        exact List.mem_filterMap.mp (hblocks ▸ this)
      obtain ⟨p0, _, hp0⟩ := hb0
      have hb0strip : b0 = pyStrip p0 ∧ ¬ pyStrip p0 = "" := by
        by_cases hs : pyStrip p0 = ""
        · simp [hs] at hp0
        · simp [hs] at hp0
          exact ⟨hp0.symm, hs⟩
      obtain ⟨hb0eq, hb0ne⟩ := hb0strip
      have hstrip_ne : stripData p0.data ≠ [] := by
        intro hx
        exact hb0ne ((pyStrip_eq_empty_iff p0).mpr hx)
      obtain ⟨c, hcmem, hcns⟩ := exists_nonspace_of_stripData_ne_nil p0.data hstrip_ne
      have hcb0 : c ∈ b0.data := by
        rw [hb0eq]
        exact hcmem
      have hcjoin : c ∈ (joinWith "\n\n" (b0 :: rest)).data :=
        mem_data_joinWith_head "\n\n" b0 rest c hcb0
      intro hblank
      have : stripData a.data = [] := (pyStrip_eq_empty_iff a).mp hblank
      exact stripData_ne_nil (by rw [ha, hbl]; exact hcjoin) hcns this

/-- A report whose `action` is already populated but whose appendix is
still missing. -/
def repActionSet : FundamentalReport :=
  { ticker := "TEST"
    stance := .NEUTRAL
    covered_call_bias := .INCOME
    confidence := 8 / 10
    key_points := ["k"]
    snapshot := { ticker := "TEST" }
    action := some .SELL_CALL
    action_reason := some "Neutral + INCOME: baseline covered call posture." }

/-- A proposal-time state holding an agentic view, so `build_appendix`
produces a non-empty agentic block. -/
def stateWithAgentic : ProposalState :=
  { agentic_fundamentals := some ⟨.NEUTRAL, .INCOME, 1 / 2, [], []⟩ }

/-- The agentic appendix block built by `build_appendix stateWithAgentic`. -/
def agenticAppendixBlock : String :=
  "Agentic Fundamentals\n-------------------\nStance: NEUTRAL | Bias: INCOME | Confidence: 0.50"

/-- `repActionSet` after the patch has backfilled the appendix. -/
def repActionSetPatched : FundamentalReport :=
  { repActionSet with appendix := some agenticAppendixBlock }

unseal Rat.add Rat.mul Rat.inv Rat.sub Rat.ofScientific in
/-- C9 (counterexample): a report whose `action` is already set is NOT left
unchanged by re-running the proposal patch — when its appendix is still
missing and the state can build one (here from the agentic block), the
patch fills the appendix and returns a modified report. -/
theorem C9_report_patch_counterexample :
    proposal_patch stateWithAgentic repActionSet = some repActionSetPatched ∧
    proposal_patch stateWithAgentic repActionSet ≠ some repActionSet := by
  constructor <;> decide

/-- C9 (amended): the proposal patch is idempotent — re-running it on the
report produced by a previous patch of the same state is a no-op (and a
patch that returned the empty update leaves nothing to do).  Populated
fields are never overwritten; but a report with `action` set and appendix
missing can still gain an appendix on the first patch, which is what the
original claim overlooked. -/
theorem C9_report_patch_amended (state : ProposalState) (rep rep2 : FundamentalReport)
    (h : proposal_patch state rep = some rep2) :
    proposal_patch state rep2 = none := by
  rcases hact : rep.action with _ | act
  · rcases happ : rep.appendix with _ | a0
    · rcases hba : build_appendix state with _ | anew
      · simp only [proposal_patch, hact, happ, hba, Option.some.injEq] at h
        subst h
        simp [proposal_patch, happ, hba]
      · simp only [proposal_patch, hact, happ, hba, Option.some.injEq] at h
        subst h
        simp [proposal_patch, build_appendix_nonblank state anew hba]
    · by_cases hbl : pyStrip a0 = ""
      · rcases hba : build_appendix state with _ | anew
        · simp only [proposal_patch, hact, happ, hba, hbl, Option.some.injEq,
            if_true, if_pos] at h
          subst h
          simp [proposal_patch, happ, hba, hbl]
        · simp only [proposal_patch, hact, happ, hba, hbl, Option.some.injEq,
            if_true, if_pos] at h
          subst h
          simp [proposal_patch, build_appendix_nonblank state anew hba]
      · simp only [proposal_patch, hact, happ, hbl, Option.some.injEq,
          if_false, if_neg] at h
        subst h
        simp [proposal_patch, happ, hbl]
  · rcases happ : rep.appendix with _ | a0
    · rcases hba : build_appendix state with _ | anew
      · simp [proposal_patch, hact, happ, hba] at h
      · simp only [proposal_patch, hact, happ, hba, Option.some.injEq] at h
        subst h
        simp [proposal_patch, hact, build_appendix_nonblank state anew hba]
    · by_cases hbl : pyStrip a0 = ""
      · rcases hba : build_appendix state with _ | anew
        · simp [proposal_patch, hact, happ, hba, hbl] at h
        · simp only [proposal_patch, hact, happ, hba, hbl, Option.some.injEq,
            if_true, if_pos] at h
          subst h
          simp [proposal_patch, hact, build_appendix_nonblank state anew hba]
      · simp [proposal_patch, hact, happ, hbl] at h

/-- A report with `action` not yet populated. -/
def repNoAction : FundamentalReport :=
  { ticker := "W"
    stance := .NEUTRAL
    covered_call_bias := .INCOME
    confidence := 8 / 10
    key_points := ["k"]
    snapshot := { ticker := "W" } }

/-- `repNoAction` after the patch has backfilled action and reason. -/
def repNoActionPatched : FundamentalReport :=
  { repNoAction with
    action := some .SELL_CALL
    action_reason := some "Neutral + INCOME: baseline covered call posture." }

unseal Rat.add Rat.mul Rat.inv Rat.sub Rat.ofScientific in
/-- Witness for C9 (amended): patching a report once (here: backfilling the
action on an empty state) and patching the result again is a no-op. -/
theorem C9_report_patch_amended_witness :
    proposal_patch {} repNoAction = some repNoActionPatched ∧
    proposal_patch {} repNoActionPatched = none :=
  ⟨by decide,
   C9_report_patch_amended {} repNoAction repNoActionPatched (by decide)⟩

end CoveredCall
